import Mathlib

/-!
# Verification of `tprstorage` (giantswarm/tprstorage)

Shallow embedding of `storage.go`: a key-value storage facade over a single
third-party object (TPO) held in a Kubernetes-style store.  The backing
object's `data` field is a string-to-string map; writes are JSON merge
patches against the object's item endpoint, reads fetch and decode the
whole object.

Go strings are modelled as `List Char`; the stored `data` map as an
association list.  Go's panicking index/slice operations return `Option`
(with `none` for a run-time panic).  External calls (the Kubernetes REST
client, the operatorkit TPR primitive) are modelled by their observable
results, passed in as explicit parameters.
-/

namespace TPRStorage

/-- A Go string (modelled at the character level). -/
abbrev GoStr := List Char

/-- Shorthand turning a Lean string literal into a `GoStr`. -/
def str (s : String) : GoStr := s.toList

/-- The backing object's `data` field: the stored string-to-string map,
modelled as an association list (Go map iteration order is unspecified;
the list fixes one order). -/
abbrev Data := List (GoStr × GoStr)

/-- Go `strings.HasPrefix(s, pre)`. -/
def goHasPrefix (s pre : GoStr) : Bool := pre.isPrefixOf s

/-- Go string indexing `s[i]`: panics (here `none`) when out of bounds.
In the source the index is always guarded, but the model keeps the
panic case explicit. -/
def goIndex (s : GoStr) (i : Nat) : Option Char := s.get? i

/-- Go string slicing `s[i:]`: yields the suffix from byte `i`, and
panics (here `none`) when `i > len(s)`. -/
def goSliceFrom (s : GoStr) (i : Nat) : Option GoStr :=
  if i ≤ s.length then some (s.drop i) else none

/-- Go map read `data[k]`: the value stored at `k`, if any. -/
def lookupData (d : Data) (k : GoStr) : Option GoStr :=
  match d with
  | [] => none
  | (k', v) :: rest => if k' = k then some v else lookupData rest k

/-- Removal of a key from the stored map (the server-side effect of a
merge patch carrying an explicit `null` for that key). -/
def removeKey (d : Data) (k : GoStr) : Data :=
  match d with
  | [] => []
  | (k', v) :: rest =>
    if k' = k then removeKey rest k else (k', v) :: removeKey rest k

/-- Update of a key in the stored map (the server-side effect of a merge
patch carrying a non-null value for that key). -/
def setKey (d : Data) (k v : GoStr) : Data := (k, v) :: removeKey d k

/-- A merge-patch body for the `data` field: each listed key maps either
to a replacement value (`some v`) or to JSON `null` (`none`). -/
abbrev Patch := List (GoStr × Option GoStr)

/-- Modelled from the spec: merge-patch application is performed by the
backing store (an external collaborator, spec §6 and glossary): "only
specified fields are changed; omitted fields are left alone, `null`
removes a field". -/
def applyMergePatch (d : Data) (p : Patch) : Data :=
  p.foldl
    (fun acc kv =>
      match kv.2 with
      | some v => setKey acc kv.1 v
      | none => removeKey acc kv.1)
    d

/-- An error coming back from an external call (REST client or TPR
primitive).  `alreadyExists` records whether the Kubernetes-side
classifier (`errors.IsAlreadyExists` / `tpr.IsAlreadyExists`) accepts
it; `code` distinguishes concrete errors. -/
structure ExtError where
  alreadyExists : Bool
  code : Nat
deriving DecidableEq, Repr

/-- Modelled from the spec: the error taxonomy of §7 (the repository's
`error.go`, defining `invalidConfigError`, `notFoundError` and their
matchers, is not among the sources; `storage.go` only references them).
`microerror.Mask`/`Maskf` wrap an error with context and preserve its
kind, so errors are modelled at the kind level, with the message kept
where the source attaches one to a fresh error. -/
inductive StorageError where
  | invalidConfig (msg : String)
  | notFound (msg : String)
  | ext (e : ExtError)
deriving DecidableEq, Repr

/-- `Storage.getData`: fetch the TPO at the item endpoint and decode its
`data` field.  `fetch` is the combined observable result of the GET and
the JSON unmarshal: either the decoded map or an external/decode error. -/
def getData (fetch : Except ExtError Data) : Except StorageError Data :=
  match fetch with
  | .error e => .error (.ext e)
  | .ok d => .ok d

/-- `Storage.Exists`: fetch the data map and report literal membership of
the key. -/
def existsKey (fetch : Except ExtError Data) (key : GoStr) :
    Except StorageError Bool :=
  match getData fetch with
  | .error e => .error e
  | .ok d => .ok (lookupData d key).isSome

/-- `Storage.Search`: fetch the data map; return the value at the exact
key, or a `notFound` error when the key is absent. -/
def search (fetch : Except ExtError Data) (key : GoStr) :
    Except StorageError GoStr :=
  match getData fetch with
  | .error e => .error e
  | .ok d =>
    match lookupData d key with
    | some v => .ok v
    | none => .error (.notFound ("searching for key=" ++ String.mk key))

/-- One iteration of `Storage.List`'s scanning loop, for map key `k` and
requested prefix `key` (storage.go lines 279-291).  Results:
`none` — the Go code panics; `some none` — `k` is skipped (`continue`);
`some (some rest)` — `rest` is appended to the result list.
The `&&` in `len(k) != keyLen && k[keyLen] != '/'` short-circuits, so
`k[keyLen]` is only evaluated when the lengths differ. -/
def listStep (key k : GoStr) : Option (Option GoStr) :=
  if ¬ goHasPrefix k key then some none
  else if k.length = key.length then
    (goSliceFrom k (key.length + 1)).map some
  else
    match goIndex k key.length with
    | none => none
    | some c =>
      if c ≠ '/' then some none
      else (goSliceFrom k (key.length + 1)).map some

/-- The scanning loop of `Storage.List` over all stored keys, in map
iteration order; `none` when any iteration panics. -/
def listScan (d : Data) (key : GoStr) : Option (List GoStr) :=
  d.foldl
    (fun acc kv =>
      match acc with
      | none => none
      | some l =>
        match listStep key kv.1 with
        | none => none
        | some none => some l
        | some (some rest) => some (l ++ [rest]))
    (some [])

/-- `Storage.Put`'s outcome, given the observable result of the PATCH
round trip (`none` = success). -/
def put (patchErr : Option ExtError) : Except StorageError Unit :=
  match patchErr with
  | some e => .error (.ext e)
  | none => .ok ()

/-- `Storage.Create` (storage.go lines 207-213): calls `Put`; when `Put`
errors, line 210 evaluates `microerror.Mask(err)` but does not return
it, and line 212 returns `nil` unconditionally. -/
def create (patchErr : Option ExtError) : Except StorageError Unit :=
  match put patchErr with
  | .error _e => .ok ()
  | .ok _ => .ok ()

/-- `Storage.Delete`'s outcome, given the observable result of the PATCH
round trip (`none` = success). -/
def deleteOp (patchErr : Option ExtError) : Except StorageError Unit :=
  match patchErr with
  | some e => .error (.ext e)
  | none => .ok ()

/-- The addressing strings a `Storage` instance carries: the backing
object's item endpoint and its collection endpoint. -/
structure StorageS where
  tpoEndpoint : String
  tpoListEndpoint : String
deriving DecidableEq, Repr

/-- HTTP verbs the facade issues against the store. -/
inductive Verb where
  | get
  | post
  | patchMerge
deriving DecidableEq, Repr

/-- A merge-patch request as issued by `Put`/`Delete`: the verb (always
`PATCH` with `types.MergePatchType`), the absolute path, and the decoded
`data` patch body. -/
structure PatchRequest where
  verb : Verb
  path : String
  patch : Patch
deriving DecidableEq, Repr

/-- The patch body `Put` marshals: `{"data": {key: value}}`. -/
def putPatch (key value : GoStr) : Patch := [(key, some value)]

/-- The patch body `Delete` marshals: `{"data": {key: null}}`. -/
def deletePatch (key : GoStr) : Patch := [(key, none)]

/-- The request `Storage.Put` issues: a merge patch at the item endpoint
with body `{"data": {key: value}}`. -/
def putRequest (s : StorageS) (key value : GoStr) : PatchRequest :=
  { verb := .patchMerge, path := s.tpoEndpoint, patch := putPatch key value }

/-- The request `Storage.Delete` issues: a merge patch at the item
endpoint with body `{"data": {key: null}}`. -/
def deleteRequest (s : StorageS) (key : GoStr) : PatchRequest :=
  { verb := .patchMerge, path := s.tpoEndpoint, patch := deletePatch key }

/-- The stored map after a successful `Put(key, value)` round trip. -/
def putData (d : Data) (key value : GoStr) : Data :=
  applyMergePatch d (putPatch key value)

/-- The stored map after a successful `Delete(key)` round trip. -/
def deleteData (d : Data) (key : GoStr) : Data :=
  applyMergePatch d (deletePatch key)

/-- `TPRConfig`: identity of the third-party resource. -/
structure ConfigTPR where
  name : String
  version : String
  description : String
deriving DecidableEq, Repr

/-- `TPOConfig`: name and namespace of the third-party object. -/
structure ConfigTPO where
  name : String
  ns : String
deriving DecidableEq, Repr

/-- `Config` as far as `New`'s validation observes it: for the two
dependency interfaces only nil-ness is inspected, so only that bit is
modelled. -/
structure Config where
  k8sClientNil : Bool
  loggerNil : Bool
  tpr : ConfigTPR
  tpo : ConfigTPO
deriving DecidableEq, Repr

/-- Observable results of the external calls `New` makes, in program
order: `tpr.New`, `tpr.CreateAndWait`, `Namespaces().Create`, and the
POST creating the TPO.  `none` means the call succeeded. -/
structure Env where
  tprNewErr : Option ExtError
  createAndWaitErr : Option ExtError
  createNamespaceErr : Option ExtError
  createTPOErr : Option ExtError
deriving DecidableEq, Repr

/-- Modelled from the spec: the resource-type endpoint for a namespace,
`<resourceTypeEndpoint>/<namespace>` (spec §6); `tpr.Endpoint` lives in
the external operatorkit package.  Only its shape as a string of the
name, version and namespace matters here. -/
def tprEndpoint (name version ns : String) : String :=
  "/apis/" ++ name ++ "/" ++ version ++ "/namespaces/" ++ ns

/-- One provisioning step of `New`: an error accepted by the
already-exists classifier is logged and suppressed (the step behaves as
a success and `next` runs); any other error aborts `New` with that
error; on success `next` runs. -/
def stepCheck (r : Option ExtError) (next : Except StorageError StorageS) :
    Except StorageError StorageS :=
  match r with
  | some e => if e.alreadyExists then next else .error (.ext e)
  | none => next

/-- `New` (storage.go lines 77-205): validates the configuration,
defaults an empty TPO namespace to `"default"`, builds the TPR client,
assembles the endpoints, then provisions the TPR, the namespace and the
TPO in order, treating "already exists" as success at each step. -/
def New (c : Config) (env : Env) : Except StorageError StorageS :=
  if c.k8sClientNil then .error (.invalidConfig "config.K8sClient is nil")
  else if c.loggerNil then .error (.invalidConfig "config.Logger is nil")
  else if c.tpr.name = "" then .error (.invalidConfig "config.TPR.Name is empty")
  else if c.tpr.version = "" then .error (.invalidConfig "config.TPR.Version is empty")
  else if c.tpo.name = "" then .error (.invalidConfig "config.TPO.Name is empty")
  else
    let ns := if c.tpo.ns = "" then "default" else c.tpo.ns
    match env.tprNewErr with
    | some e => .error (.ext e)
    | none =>
      let s : StorageS :=
        { tpoEndpoint := tprEndpoint c.tpr.name c.tpr.version ns ++ "/" ++ c.tpo.name
          tpoListEndpoint := tprEndpoint c.tpr.name c.tpr.version ns }
      stepCheck env.createAndWaitErr
        (stepCheck env.createNamespaceErr
          (stepCheck env.createTPOErr (.ok s)))

/-- A required construction parameter is missing or empty (the five
conditions `New` rejects with an invalid-config error). -/
def requiredMissing (c : Config) : Prop :=
  c.k8sClientNil = true ∨ c.loggerNil = true ∨ c.tpr.name = "" ∨
    c.tpr.version = "" ∨ c.tpo.name = ""

/-- All required construction parameters are present. -/
def validConfig (c : Config) : Prop :=
  c.k8sClientNil = false ∧ c.loggerNil = false ∧ c.tpr.name ≠ "" ∧
    c.tpr.version ≠ "" ∧ c.tpo.name ≠ ""

/-- A step result that provisioning does not abort on: success, or an
error the already-exists classifier accepts. -/
def nonFatal (r : Option ExtError) : Prop :=
  ∀ e, r = some e → e.alreadyExists = true

/-! ## Helper lemmas about the stored map -/

theorem lookupData_removeKey_self (d : Data) (k : GoStr) :
    lookupData (removeKey d k) k = none := by
  induction d with
  | nil => rfl
  | cons kv rest ih =>
    obtain ⟨a, v⟩ := kv
    by_cases ha : a = k
    · simpa [removeKey, ha] using ih
    · simpa [removeKey, ha, lookupData] using ih

theorem lookupData_removeKey_ne (d : Data) (k k' : GoStr) (h : k' ≠ k) :
    lookupData (removeKey d k) k' = lookupData d k' := by
  have hk : k ≠ k' := fun hh => h hh.symm
  induction d with
  | nil => rfl
  | cons kv rest ih =>
    obtain ⟨a, v⟩ := kv
    by_cases ha : a = k
    · simp [removeKey, ha, lookupData, hk, ih]
    · by_cases hak' : a = k'
      · simp [removeKey, ha, lookupData, hak', h]
      · simp [removeKey, ha, lookupData, hak', ih]

theorem lookupData_setKey_self (d : Data) (k v : GoStr) :
    lookupData (setKey d k v) k = some v := by
  simp [setKey, lookupData]

theorem lookupData_setKey_ne (d : Data) (k k' v : GoStr) (h : k' ≠ k) :
    lookupData (setKey d k v) k' = lookupData d k' := by
  have hk : k ≠ k' := fun hh => h hh.symm
  simp [setKey, lookupData, hk, lookupData_removeKey_ne d k k' h]

theorem removeKey_absent (d : Data) (k : GoStr)
    (h : lookupData d k = none) : removeKey d k = d := by
  revert h
  induction d with
  | nil => intro _; rfl
  | cons kv rest ih =>
    obtain ⟨a, v⟩ := kv
    intro h
    by_cases ha : a = k
    · simp [lookupData, ha] at h
    · simp only [lookupData, if_neg ha] at h
      simp [removeKey, ha, ih h]

/-! ## Helper lemmas about provisioning steps -/

theorem stepCheck_nonFatal (r : Option ExtError)
    (next : Except StorageError StorageS) (h : nonFatal r) :
    stepCheck r next = next := by
  cases r with
  | none => rfl
  | some e => simp [stepCheck, h e rfl]

theorem stepCheck_fatal (e : ExtError) (next : Except StorageError StorageS)
    (h : e.alreadyExists = false) :
    stepCheck (some e) next = Except.error (StorageError.ext e) := by
  simp [stepCheck, h]

theorem stepCheck_not_invalidConfig (r : Option ExtError)
    (next : Except StorageError StorageS)
    (hn : ∀ msg, next ≠ Except.error (StorageError.invalidConfig msg)) :
    ∀ msg, stepCheck r next ≠ Except.error (StorageError.invalidConfig msg) := by
  intro msg
  cases r with
  | none => exact hn msg
  | some e =>
    simp only [stepCheck]
    split
    · exact hn msg
    · intro hh
      simp at hh

/-! ## Claim theorems -/

/-- C1: the claim says `Create(key, value)` returns exactly what
`Put(key, value)` returns — an error iff `Put` errors.  The code
contradicts it: when the PATCH round trip fails (here with a transport
error of code 7), `Put` returns that error but `Create` returns success,
because line 210 evaluates `microerror.Mask(err)` without returning it. -/
theorem create_swallows_put_error :
    put (some ⟨false, 7⟩) = Except.error (StorageError.ext ⟨false, 7⟩) ∧
      create (some ⟨false, 7⟩) = Except.ok () :=
  ⟨rfl, rfl⟩

/-- C2: the claim (and the spec's own example) says `List("/foo")` over
the store `{"/foo":"a", "/foo/bar":"b", "/foobar":"c"}` selects the
segment-aware matches and returns `["bar"]` without error.  The code
instead panics on that exact store: for the exact-match key `"/foo"` the
loop computes the slice `k[len(key)+1:]` with `len(key)+1 > len(k)`, an
out-of-bounds string slice (modelled as `none`).  Dropping the
exact-match entry, the same scan does return `["bar"]`, so the fault is
precisely the exact-match case. -/
theorem list_example_panics :
    listScan [(str "/foo", str "a"), (str "/foo/bar", str "b"),
        (str "/foobar", str "c")] (str "/foo") = none ∧
      listScan [(str "/foo/bar", str "b"), (str "/foobar", str "c")]
        (str "/foo") = some [str "bar"] := by
  decide

/-- C3: the claim says `List`'s scanning loop performs only in-bounds
indexing and slicing, in particular when the data map contains a key
exactly equal to the prefix.  The code contradicts it: on the store
`{"/foo":"x"}` with prefix `"/foo"` the remainder slice
`k[len(key)+1:]` starts past the end of `k` and the Go program panics
(modelled as `none`). -/
theorem list_exact_match_panics :
    listScan [(str "/foo", str "x")] (str "/foo") = none := by
  decide

/-- C4: when the fetch-and-decode of the backing object succeeds,
`Search(key)` returns the stored value for a literally present key, and
for an absent key returns the `notFound` error — never a successful
empty string — and a `notFound` error is distinct from every
transport/external error. -/
theorem search_exact_or_notFound (d : Data) (key : GoStr) :
    (∀ v, lookupData d key = some v →
        search (Except.ok d) key = Except.ok v) ∧
      (lookupData d key = none →
        search (Except.ok d) key =
          Except.error (StorageError.notFound
            ("searching for key=" ++ String.mk key))) ∧
      (∀ m e, StorageError.notFound m ≠ StorageError.ext e) := by
  refine ⟨?_, ?_, ?_⟩
  · intro v hv
    simp [search, getData, hv]
  · intro hn
    simp [search, getData, hn]
  · intro m e hme
    exact StorageError.noConfusion hme

/-- Witness for C4 at a concrete store. -/
theorem search_exact_or_notFound_witness :
    search (Except.ok [(str "a", str "1")]) (str "a") =
        Except.ok (str "1") ∧
      search (Except.ok [(str "a", str "1")]) (str "b") =
        Except.error (StorageError.notFound
          ("searching for key=" ++ String.mk (str "b"))) :=
  ⟨(search_exact_or_notFound [(str "a", str "1")] (str "a")).1
      (str "1") (by decide),
    (search_exact_or_notFound [(str "a", str "1")] (str "b")).2.1
      (by decide)⟩

/-- C5: `Put(key, value)` issues a merge patch at the backing object's
item endpoint whose body is exactly `{"data": {key: value}}`, and under
merge-patch application every stored key other than `key` is unchanged. -/
theorem put_is_single_key_merge_patch (s : StorageS) (key value : GoStr)
    (d : Data) :
    (putRequest s key value).verb = Verb.patchMerge ∧
      (putRequest s key value).path = s.tpoEndpoint ∧
      (putRequest s key value).patch = [(key, some value)] ∧
      ∀ k', k' ≠ key →
        lookupData (applyMergePatch d (putRequest s key value).patch) k' =
          lookupData d k' := by
  refine ⟨rfl, rfl, rfl, ?_⟩
  intro k' hk'
  have hm : applyMergePatch d (putRequest s key value).patch =
      setKey d key value := rfl
  rw [hm]
  exact lookupData_setKey_ne d key k' value hk'

/-- Witness for C5 at a concrete store and keys. -/
theorem put_is_single_key_merge_patch_witness :
    lookupData
        (applyMergePatch [(str "b", str "2")]
          (putRequest ⟨"/e", "/l"⟩ (str "a") (str "1")).patch)
        (str "b") =
      lookupData [(str "b", str "2")] (str "b") :=
  (put_is_single_key_merge_patch ⟨"/e", "/l"⟩ (str "a") (str "1")
      [(str "b", str "2")]).2.2.2 (str "b") (by decide)

/-- C6: in any store state, after a successful `Put(k, v)` with no
intervening mutation, `Search(k)` returns `v` and `Exists(k)` returns
true. -/
theorem put_then_search_exists (d : Data) (k v : GoStr) :
    search (Except.ok (putData d k v)) k = Except.ok v ∧
      existsKey (Except.ok (putData d k v)) k = Except.ok true := by
  have hp : putData d k v = setKey d k v := rfl
  have h : lookupData (putData d k v) k = some v := by
    rw [hp]
    exact lookupData_setKey_self d k v
  constructor
  · simp [search, getData, h]
  · simp [existsKey, getData, h]

/-- Witness for C6 at a concrete store and key. -/
theorem put_then_search_exists_witness :
    search (Except.ok (putData [] (str "a") (str "1"))) (str "a") =
      Except.ok (str "1") :=
  (put_then_search_exists [] (str "a") (str "1")).1

/-- C7: for a key present in the stored map, after a successful
`Delete(k)` with no intervening mutation, `Exists(k)` returns false and
`Search(k)` signals the not-found failure. -/
theorem delete_then_search_exists (d : Data) (k : GoStr)
    (_h : (lookupData d k).isSome = true) :
    existsKey (Except.ok (deleteData d k)) k = Except.ok false ∧
      search (Except.ok (deleteData d k)) k =
        Except.error (StorageError.notFound
          ("searching for key=" ++ String.mk k)) := by
  have hd : deleteData d k = removeKey d k := rfl
  have hn : lookupData (deleteData d k) k = none := by
    rw [hd]
    exact lookupData_removeKey_self d k
  constructor
  · simp [existsKey, getData, hn]
  · simp [search, getData, hn]

/-- Witness for C7 at a concrete store and key. -/
theorem delete_then_search_exists_witness :
    (lookupData [(str "a", str "1")] (str "a")).isSome = true ∧
      existsKey (Except.ok (deleteData [(str "a", str "1")] (str "a")))
        (str "a") = Except.ok false :=
  ⟨by decide,
    (delete_then_search_exists [(str "a", str "1")] (str "a")
      (by decide)).1⟩

/-- C8: `Delete(key)` issues a merge patch whose body is exactly
`{"data": {key: null}}`; the round trip succeeds when the store accepts
the patch, and when `key` is absent from the stored map the merge-patch
application leaves the map exactly as it was. -/
theorem delete_absent_key_noop (s : StorageS) (key : GoStr) (d : Data)
    (h : lookupData d key = none) :
    (deleteRequest s key).verb = Verb.patchMerge ∧
      (deleteRequest s key).patch = [(key, none)] ∧
      deleteOp none = Except.ok () ∧
      applyMergePatch d (deleteRequest s key).patch = d := by
  refine ⟨rfl, rfl, rfl, ?_⟩
  have hm : applyMergePatch d (deleteRequest s key).patch =
      removeKey d key := rfl
  rw [hm]
  exact removeKey_absent d key h

/-- Witness for C8 at a concrete store with the key absent. -/
theorem delete_absent_key_noop_witness :
    lookupData [(str "b", str "2")] (str "a") = none ∧
      applyMergePatch [(str "b", str "2")]
        (deleteRequest ⟨"/e", "/l"⟩ (str "a")).patch = [(str "b", str "2")] :=
  ⟨by decide,
    (delete_absent_key_noop ⟨"/e", "/l"⟩ (str "a") [(str "b", str "2")]
      (by decide)).2.2.2⟩

/-- C9: `New` fails with an invalid-configuration error — returning no
`Storage` instance — exactly when a required parameter is missing: the
store client is nil, the logger is nil, the resource name or version is
empty, or the object name is empty.  An empty description (and an empty
namespace, which is defaulted) is not an error. -/
theorem new_invalidConfig_iff (c : Config) (env : Env) :
    (∃ msg, New c env = Except.error (StorageError.invalidConfig msg)) ↔
      requiredMissing c := by
  constructor
  · rintro ⟨msg, hmsg⟩
    by_cases h1 : c.k8sClientNil = true
    · exact Or.inl h1
    by_cases h2 : c.loggerNil = true
    · exact Or.inr (Or.inl h2)
    by_cases h3 : c.tpr.name = ""
    · exact Or.inr (Or.inr (Or.inl h3))
    by_cases h4 : c.tpr.version = ""
    · exact Or.inr (Or.inr (Or.inr (Or.inl h4)))
    by_cases h5 : c.tpo.name = ""
    · exact Or.inr (Or.inr (Or.inr (Or.inr h5)))
    exfalso
    cases htpr : env.tprNewErr with
    | some e =>
      simp [New, h1, h2, h3, h4, h5, htpr] at hmsg
    | none =>
      simp only [New, h1, h2, h3, h4, h5, htpr, if_false, Bool.false_eq_true,
        if_neg] at hmsg
      exact stepCheck_not_invalidConfig _ _
        (fun m => stepCheck_not_invalidConfig _ _
          (fun m2 => stepCheck_not_invalidConfig _ _
            (fun m3 hh => Except.noConfusion hh) m2) m) msg hmsg
  · intro hreq
    by_cases h1 : c.k8sClientNil = true
    · exact ⟨"config.K8sClient is nil", by simp [New, h1]⟩
    by_cases h2 : c.loggerNil = true
    · exact ⟨"config.Logger is nil", by simp [New, h1, h2]⟩
    by_cases h3 : c.tpr.name = ""
    · exact ⟨"config.TPR.Name is empty", by simp [New, h1, h2, h3]⟩
    by_cases h4 : c.tpr.version = ""
    · exact ⟨"config.TPR.Version is empty", by simp [New, h1, h2, h3, h4]⟩
    by_cases h5 : c.tpo.name = ""
    · exact ⟨"config.TPO.Name is empty", by simp [New, h1, h2, h3, h4, h5]⟩
    exfalso
    rcases hreq with h | h | h | h | h
    · exact h1 h
    · exact h2 h
    · exact h3 h
    · exact h4 h
    · exact h5 h

/-- Witness for C9: a configuration with a nil store client is rejected
(and one with only an empty description is not required-missing). -/
theorem new_invalidConfig_iff_witness :
    requiredMissing
      (Config.mk true false (ConfigTPR.mk "n" "v" "") (ConfigTPO.mk "o" "ns")) :=
  (new_invalidConfig_iff
      (Config.mk true false (ConfigTPR.mk "n" "v" "") (ConfigTPO.mk "o" "ns"))
      (Env.mk none none none none)).mp
    ⟨"config.K8sClient is nil", rfl⟩

/-- C10: with a valid configuration and a working TPR client, each of
the three provisioning steps (register the resource type, create the
namespace, create the backing object) treats an already-exists response
as success, so when every step succeeds or reports already-exists `New`
returns a `Storage`; any other error from a step — the earlier steps not
having aborted — is propagated to the caller.  In particular a second
bootstrap against the same names (all three steps answering
already-exists) succeeds. -/
theorem provisioning_steps (c : Config) (env : Env) (hv : validConfig c)
    (ht : env.tprNewErr = none) :
    ((nonFatal env.createAndWaitErr ∧ nonFatal env.createNamespaceErr ∧
        nonFatal env.createTPOErr) → ∃ s, New c env = Except.ok s) ∧
      (∀ e, e.alreadyExists = false → env.createAndWaitErr = some e →
        New c env = Except.error (StorageError.ext e)) ∧
      (∀ e, e.alreadyExists = false → nonFatal env.createAndWaitErr →
        env.createNamespaceErr = some e →
        New c env = Except.error (StorageError.ext e)) ∧
      (∀ e, e.alreadyExists = false → nonFatal env.createAndWaitErr →
        nonFatal env.createNamespaceErr → env.createTPOErr = some e →
        New c env = Except.error (StorageError.ext e)) := by
  obtain ⟨h1, h2, h3, h4, h5⟩ := hv
  have hnew : New c env =
      stepCheck env.createAndWaitErr
        (stepCheck env.createNamespaceErr
          (stepCheck env.createTPOErr
            (Except.ok
              (StorageS.mk
                (tprEndpoint c.tpr.name c.tpr.version
                    (if c.tpo.ns = "" then "default" else c.tpo.ns) ++
                  "/" ++ c.tpo.name)
                (tprEndpoint c.tpr.name c.tpr.version
                  (if c.tpo.ns = "" then "default" else c.tpo.ns)))))) := by
    simp [New, h1, h2, h3, h4, h5, ht]
  refine ⟨?_, ?_, ?_, ?_⟩
  · rintro ⟨n1, n2, n3⟩
    refine ⟨StorageS.mk
        (tprEndpoint c.tpr.name c.tpr.version
            (if c.tpo.ns = "" then "default" else c.tpo.ns) ++
          "/" ++ c.tpo.name)
        (tprEndpoint c.tpr.name c.tpr.version
          (if c.tpo.ns = "" then "default" else c.tpo.ns)), ?_⟩
    rw [hnew, stepCheck_nonFatal _ _ n1, stepCheck_nonFatal _ _ n2,
      stepCheck_nonFatal _ _ n3]
  · intro e he hce
    rw [hnew, hce, stepCheck_fatal e _ he]
  · intro e he hn1 hcn
    rw [hnew, stepCheck_nonFatal _ _ hn1, hcn, stepCheck_fatal e _ he]
  · intro e he hn1 hn2 hct
    rw [hnew, stepCheck_nonFatal _ _ hn1, stepCheck_nonFatal _ _ hn2, hct,
      stepCheck_fatal e _ he]

/-- Witness for C10: with a valid configuration, a fatal (not
already-exists) namespace-creation error is propagated as-is. -/
theorem provisioning_steps_witness :
    New (Config.mk false false (ConfigTPR.mk "n" "v" "d") (ConfigTPO.mk "o" "ns"))
        (Env.mk none (some (ExtError.mk true 1)) (some (ExtError.mk false 9)) none) =
      Except.error (StorageError.ext (ExtError.mk false 9)) :=
  (provisioning_steps
      (Config.mk false false (ConfigTPR.mk "n" "v" "d") (ConfigTPO.mk "o" "ns"))
      (Env.mk none (some (ExtError.mk true 1)) (some (ExtError.mk false 9)) none)
      ⟨rfl, rfl, by decide, by decide, by decide⟩ rfl).2.2.1
    (ExtError.mk false 9) rfl
    (fun e he => by
      injection he with he2
      rw [← he2])
    rfl

end TPRStorage
